import Mathlib

/-!
Shallow embedding of `aries_cloudagent/ledger/multiple_ledger/manager_provider.py`
(`MultiIndyLedgerManagerProvider`), the multi-ledger registry constructor: it reads
a list of ledger configuration entries, partitions freshly built ledger instances
into production / non-production insertion-ordered maps, tracks the write ledger,
optionally injects a fallback ledger from the root profile when the genesis flag
is set, resolves a manager class per variant, and memoizes the result per class.

Python dicts (`OrderedDict`) are embedded as association lists with in-place
update on existing keys and append otherwise; `move_to_end(key, last=False)`
raises `KeyError` when the key is absent, which the embedding mirrors.
-/

namespace MultiLedger

/-- Exceptions that can escape `MultiIndyLedgerManagerProvider.provide`:
`MultipleLedgerManagerError` for an unrecognized root profile, `InjectionError`
wrapping a `ClassNotFoundError` from `ClassLoader.load_class`, plus the built-in
Python errors the body can raise (`KeyError` from `OrderedDict.move_to_end` on a
missing key, `TypeError` from iterating a missing config list, `AttributeError`
from reading `.pool` on a missing fallback ledger). -/
inductive PyError where
  | multipleLedgerManagerError (msg : String)
  | injectionError (msg : String)
  | keyError
  | typeError
  | attributeError
  deriving DecidableEq, Repr

/-- Pool object of the fallback ledger injected from the root profile; only its
`name` attribute is read (`ledger_instance.pool.name`). -/
structure FBPool where
  name : String
  deriving DecidableEq, Repr

/-- Fallback `BaseLedger` instance obtainable from the root profile via
`root_profile.inject_or(BaseLedger)`. -/
structure FallbackLedger where
  pool : FBPool
  deriving DecidableEq, Repr

/-- Root profile passed to the provider: `IndySdkProfile` selects the "basic"
variant, `AskarProfile` the "askar-profile" variant, anything else is rejected.
The `fallback` field models what `inject_or(BaseLedger)` returns on that
profile. -/
inductive RootProfile where
  | indySdk (fallback : Option FallbackLedger)
  | askar (fallback : Option FallbackLedger)
  | other
  deriving DecidableEq, Repr

/-- Shared cache service handle returned by `injector.inject_or(BaseCache)`. -/
structure CacheHandle where
  tag : Nat
  deriving DecidableEq, Repr

/-- Ledger pool built once per configuration entry
(`IndySdkLedgerPool` / `IndyVdrLedgerPool` share the same keyword arguments). -/
structure LedgerPool where
  name : Option String
  keepalive : Option Int
  cache : Option CacheHandle
  genesis_transactions : Option String
  read_only : Option Bool
  socks_proxy : Option String
  deriving DecidableEq, Repr

/-- Ledger instance: `IndySdkLedger(pool, profile)` in the basic variant,
`IndyVdrLedger(pool, profile)` in the askar variant, or the fallback instance
injected from the root profile. -/
inductive Ledger where
  | indySdk (pool : LedgerPool) (profile : RootProfile)
  | indyVdr (pool : LedgerPool) (profile : RootProfile)
  | injected (fb : FallbackLedger)
  deriving DecidableEq, Repr

/-- One element of `ledger.ledger_config_list`. Every field is optional because
the source reads each one with `config.get(...)`, which yields `None` when the
key is absent instead of raising. -/
structure ConfigEntry where
  id : Option String
  pool_name : Option String
  is_production : Option Bool
  is_write : Option Bool
  keepalive : Option Int
  read_only : Option Bool
  socks_proxy : Option String
  genesis_transactions : Option String
  deriving DecidableEq, Repr

/-- The two settings keys the provider reads: `ledger.ledger_config_list`
(absent → `None`, iterating it raises `TypeError`) and the truthiness of
`ledger.genesis_transactions`. -/
structure Settings where
  ledger_config_list : Option (List ConfigEntry)
  genesis_transactions : Bool
  deriving DecidableEq, Repr

/-- Injector: `inject_or(BaseCache)` is best-effort and may return `None`. -/
structure Injector where
  cache : Option CacheHandle
  deriving DecidableEq, Repr

/-- The two recognized manager variants (`manager_type` strings "basic" and
"askar-profile"). -/
inductive Variant where
  | basic
  | askarProfile
  deriving DecidableEq, Repr

/-- Constructed manager object: the loaded class is called with the root
profile, both ordered partitions and the write ledger info. `cls` records the
dotted class path the instance was created (and cached) under. -/
structure Manager where
  cls : String
  profile : RootProfile
  production : List (Option String × Ledger)
  nonProduction : List (Option String × Ledger)
  writeLedgerInfo : Option (Option String × Ledger)
  deriving DecidableEq, Repr

/-- Mutable locals of the construction loop: the two `OrderedDict`s and
`write_ledger_info`. -/
structure LoopState where
  production : List (Option String × Ledger)
  nonProduction : List (Option String × Ledger)
  writeLedgerInfo : Option (Option String × Ledger)
  deriving DecidableEq, Repr

/-- Provider state: `_inst` (the memoization dict keyed by manager class path)
and `root_profile`. -/
structure Provider where
  inst : List (String × Manager)
  root_profile : RootProfile
  deriving DecidableEq, Repr

/-- Python dict assignment `d[k] = v`: replace in place if the key is present
(keeping its position), append at the end otherwise. -/
def odInsert {K V : Type} [DecidableEq K] (d : List (K × V)) (k : K) (v : V) :
    List (K × V) :=
  match d with
  | [] => [(k, v)]
  | p :: rest => if p.1 = k then (k, v) :: rest else p :: odInsert rest k v

/-- Python dict lookup `d[k]` / `k in d` combined, returning `none` when absent. -/
def odLookup {K V : Type} [DecidableEq K] (d : List (K × V)) (k : K) : Option V :=
  match d with
  | [] => none
  | p :: rest => if p.1 = k then some p.2 else odLookup rest k

/-- Python `OrderedDict.move_to_end(k, last=False)`: move the entry with key `k`
to the front, preserving the relative order of the rest; raise `KeyError` when
the key is absent. -/
def odMoveToFront {K V : Type} [DecidableEq K] (d : List (K × V)) (k : K) :
    Except PyError (List (K × V)) :=
  match d.find? (fun p => decide (p.1 = k)) with
  | none => Except.error PyError.keyError
  | some p => Except.ok (p :: d.filter (fun q => decide (q.1 ≠ k)))

/-- Python truthiness of an optional boolean (`None` is falsy). -/
def truthy : Option Bool → Bool
  | none => false
  | some b => b

/-- Synthetic id of the fallback ledger: `"startup::" + ledger_instance.pool.name`. -/
def startupId (fb : FallbackLedger) : String :=
  "startup::" ++ fb.pool.name

/-- What `self.root_profile.inject_or(BaseLedger)` returns. -/
def injectBaseLedger : RootProfile → Option FallbackLedger
  | RootProfile.indySdk fb => fb
  | RootProfile.askar fb => fb
  | RootProfile.other => none

/-- Class path of the basic manager (`basic_manager_path`). -/
def basicManagerPath : String :=
  "aries_cloudagent.ledger.multiple_ledger.indy_manager.MultiIndyLedgerManager"

/-- Class path of the askar manager (`askar_manager_path`). -/
def askarManagerPath : String :=
  "aries_cloudagent.ledger.multiple_ledger.indy_vdr_manager.MultiIndyVDRLedgerManager"

/-- `MANAGER_TYPES` lookup: variant tag to dotted class path. -/
def managerClassPath : Variant → String
  | Variant.basic => basicManagerPath
  | Variant.askarProfile => askarManagerPath

/-- The `manager_type` string for each variant. -/
def variantName : Variant → String
  | Variant.basic => "basic"
  | Variant.askarProfile => "askar-profile"

/-- Message of the `MultipleLedgerManagerError` raised for an unrecognized root
profile. -/
def rootProfileErrMsg : String :=
  "MultiIndyLedgerManagerProvider expects an IndySDKProfile [indy] " ++
    " or AskarProfile [indy_vdr] as root_profile"

/-- Message of the `InjectionError` raised when `ClassLoader.load_class` fails. -/
def unknownManagerMsg (v : Variant) : String :=
  "Unknown multiple Indy ledger manager type: " ++ variantName v

/-- The `isinstance` dispatch at the top of `provide`: `IndySdkProfile` →
"basic", `AskarProfile` → "askar-profile", otherwise raise
`MultipleLedgerManagerError`. -/
def variantOf : RootProfile → Except PyError Variant
  | RootProfile.indySdk _ => Except.ok Variant.basic
  | RootProfile.askar _ => Except.ok Variant.askarProfile
  | RootProfile.other => Except.error (PyError.multipleLedgerManagerError rootProfileErrMsg)

/-- Ledger class used by each variant (`IndySdkLedger` vs `IndyVdrLedger`). -/
def mkLedger : Variant → LedgerPool → RootProfile → Ledger
  | Variant.basic, pool, profile => Ledger.indySdk pool profile
  | Variant.askarProfile, pool, profile => Ledger.indyVdr pool profile

/-- Ledger instance built for one configuration entry: a fresh pool from the
entry fields plus the cache from the injector, bound to the root profile. -/
def entryLedger (v : Variant) (profile : RootProfile) (inj : Injector)
    (c : ConfigEntry) : Ledger :=
  mkLedger v
    { name := c.pool_name, keepalive := c.keepalive, cache := inj.cache,
      genesis_transactions := c.genesis_transactions, read_only := c.read_only,
      socks_proxy := c.socks_proxy }
    profile

/-- One iteration of the configuration loop: build the ledger instance, record
it as write ledger if `is_write` is truthy, and insert it into the production
or non-production dict according to `is_production`. -/
def processEntry (v : Variant) (profile : RootProfile) (inj : Injector)
    (st : LoopState) (c : ConfigEntry) : LoopState :=
  let inst := entryLedger v profile inj c
  let w := if truthy c.is_write then some (c.id, inst) else st.writeLedgerInfo
  if truthy c.is_production then
    { production := odInsert st.production c.id inst,
      nonProduction := st.nonProduction, writeLedgerInfo := w }
  else
    { production := st.production,
      nonProduction := odInsert st.nonProduction c.id inst, writeLedgerInfo := w }

/-- The genesis-flag fallback block: insert the injected ledger into the
production dict under the synthetic id; when no write ledger is recorded yet,
record the fallback as write ledger and call `move_to_end(ledger_id,
last=False)` — on the production dict in the basic variant but on the
non-production dict in the askar variant, exactly as the source does. -/
def fallbackStep (v : Variant) (st : LoopState) (fb : FallbackLedger) :
    Except PyError LoopState :=
  let inst := Ledger.injected fb
  let lid : Option String := some (startupId fb)
  let st1 : LoopState := { st with production := odInsert st.production lid inst }
  if st1.writeLedgerInfo.isNone then
    match v with
    | Variant.basic =>
      match odMoveToFront st1.production lid with
      | Except.error e => Except.error e
      | Except.ok pr =>
        Except.ok { production := pr, nonProduction := st1.nonProduction,
                    writeLedgerInfo := some (lid, inst) }
    | Variant.askarProfile =>
      match odMoveToFront st1.nonProduction lid with
      | Except.error e => Except.error e
      | Except.ok np =>
        Except.ok { production := st1.production, nonProduction := np,
                    writeLedgerInfo := some (lid, inst) }
  else
    Except.ok st1

/-- Initial loop state: two empty `OrderedDict`s and `write_ledger_info = None`. -/
def initState : LoopState :=
  { production := [], nonProduction := [], writeLedgerInfo := none }

/-- The construction body of `provide` for one variant (the two textually
duplicated branches of the source differ only in the ledger classes, captured
by `v`): read the config list, run the loop, run the fallback block when the
genesis flag is truthy, then load the manager class (`loader` says whether
`ClassLoader.load_class` succeeds for a given path; its failure is wrapped into
an `InjectionError`) and construct the manager. -/
def buildManager (loader : String → Bool) (v : Variant) (profile : RootProfile)
    (settings : Settings) (inj : Injector) : Except PyError Manager :=
  match settings.ledger_config_list with
  | none => Except.error PyError.typeError
  | some configList =>
    let st0 := configList.foldl (processEntry v profile inj) initState
    let stE : Except PyError LoopState :=
      if settings.genesis_transactions then
        match injectBaseLedger profile with
        | none => Except.error PyError.attributeError
        | some fb => fallbackStep v st0 fb
      else
        Except.ok st0
    match stE with
    | Except.error e => Except.error e
    | Except.ok st1 =>
      if loader (managerClassPath v) then
        Except.ok { cls := managerClassPath v, profile := profile,
                    production := st1.production,
                    nonProduction := st1.nonProduction,
                    writeLedgerInfo := st1.writeLedgerInfo }
      else
        Except.error (PyError.injectionError (unknownManagerMsg v))

/-- `MultiIndyLedgerManagerProvider.provide`: dispatch on the root profile,
return the cached manager when `_inst` already holds one for the class path,
otherwise build, cache and return it. The returned `Provider` is the state of
`self` after the call; every failure leaves it unchanged. -/
def provide (loader : String → Bool) (p : Provider) (settings : Settings)
    (inj : Injector) : Except PyError Manager × Provider :=
  match variantOf p.root_profile with
  | Except.error e => (Except.error e, p)
  | Except.ok v =>
    match odLookup p.inst (managerClassPath v) with
    | some m => (Except.ok m, p)
    | none =>
      match buildManager loader v p.root_profile settings inj with
      | Except.error e => (Except.error e, p)
      | Except.ok m =>
        (Except.ok m, { p with inst := odInsert p.inst (managerClassPath v) m })

/-- Modelled from the spec: the error classes `MultipleLedgerManagerError`
(declared in `base_manager.py`) and `InjectionError` (declared in
`config/injector.py`) are not under `src/`; spec section 7 states that every
failure of this core is surfaced as the single configuration-error kind
(`ConfigurationError`), with the resolution failure wrapped into the same kind.
This predicate classifies which embedded errors belong to that kind. -/
def isConfigurationError : PyError → Bool
  | PyError.multipleLedgerManagerError _ => true
  | PyError.injectionError _ => true
  | PyError.keyError => false
  | PyError.typeError => false
  | PyError.attributeError => false

/-- Last entry of the list whose `is_write` is truthy, if any (specification
function for the "last one wins" write designation). -/
def lastWriter : List ConfigEntry → Option ConfigEntry
  | [] => none
  | c :: rest =>
    match lastWriter rest with
    | some cr => some cr
    | none => if truthy c.is_write then some c else none

/-- Ids of a configuration-entry list, in list order. -/
def idsOf (entries : List ConfigEntry) : List (Option String) :=
  entries.map (fun c => c.id)

/-- Expected production partition contents from the entries alone, in list
order (specification function). -/
def prodPairs (v : Variant) (profile : RootProfile) (inj : Injector)
    (entries : List ConfigEntry) : List (Option String × Ledger) :=
  (entries.filter (fun c => truthy c.is_production)).map
    (fun c => (c.id, entryLedger v profile inj c))

/-- Expected non-production partition contents from the entries alone, in list
order (specification function). -/
def nonProdPairs (v : Variant) (profile : RootProfile) (inj : Injector)
    (entries : List ConfigEntry) : List (Option String × Ledger) :=
  (entries.filter (fun c => !(truthy c.is_production))).map
    (fun c => (c.id, entryLedger v profile inj c))

/-- Expected key set after construction: the entry ids plus the synthetic
fallback id when the genesis flag injects the fallback (specification
function). -/
def expectedKeys (profile : RootProfile) (settings : Settings)
    (entries : List ConfigEntry) : List (Option String) :=
  idsOf entries ++
    (if settings.genesis_transactions then
      match injectBaseLedger profile with
      | some fb => [some (startupId fb)]
      | none => []
    else [])

/-- Whether an exceptional computation succeeded. -/
def isOkE {α : Type} (r : Except PyError α) : Bool :=
  match r with
  | Except.ok _ => true
  | Except.error _ => false

/-! ### Concrete inputs and results used by witnesses and counterexamples -/

/-- Fallback ledger whose pool name is "main". -/
def fbMain : FallbackLedger := { pool := { name := "main" } }

/-- Spec-scenario entry: id "L1", production, not a writer. -/
def entryL1 : ConfigEntry :=
  { id := some "L1", pool_name := none, is_production := some true, is_write := some false,
    keepalive := none, read_only := none, socks_proxy := none, genesis_transactions := none }

/-- Non-production entry with id "N1". -/
def entryN1 : ConfigEntry :=
  { id := some "N1", pool_name := some "np", is_production := some false, is_write := none,
    keepalive := none, read_only := none, socks_proxy := none, genesis_transactions := none }

/-- First writer entry (production). -/
def entryW1 : ConfigEntry :=
  { id := some "W1", pool_name := none, is_production := some true, is_write := some true,
    keepalive := none, read_only := none, socks_proxy := none, genesis_transactions := none }

/-- Second writer entry (non-production). -/
def entryW2 : ConfigEntry :=
  { id := some "W2", pool_name := none, is_production := some false, is_write := some true,
    keepalive := none, read_only := none, socks_proxy := none, genesis_transactions := none }

/-- A configuration entry with every field missing (an empty dict). -/
def cEmpty : ConfigEntry :=
  { id := none, pool_name := none, is_production := none, is_write := none,
    keepalive := none, read_only := none, socks_proxy := none, genesis_transactions := none }

/-- A class loader for which every path resolves. -/
def loaderOk : String → Bool := fun _ => true

/-- A class loader for which no path resolves (`ClassNotFoundError`). -/
def loaderFail : String → Bool := fun _ => false

/-- Manager built by the basic variant for the spec scenario
(entries `[entryL1]`, genesis flag set, fallback pool "main"). -/
def scenarioMgr : Manager :=
  { cls := basicManagerPath,
    profile := RootProfile.indySdk (some fbMain),
    production := [(some "startup::main", Ledger.injected fbMain),
      (some "L1", entryLedger Variant.basic (RootProfile.indySdk (some fbMain)) ⟨none⟩ entryL1)],
    nonProduction := [],
    writeLedgerInfo := some (some "startup::main", Ledger.injected fbMain) }

/-- Manager built by the basic variant for an empty configuration list. -/
def emptyMgr : Manager :=
  { cls := basicManagerPath, profile := RootProfile.indySdk none,
    production := [], nonProduction := [], writeLedgerInfo := none }

/-- Manager built by the basic variant for `[entryL1, entryN1]` with the
genesis flag set and fallback pool "main". -/
def twoPartMgr : Manager :=
  { cls := basicManagerPath, profile := RootProfile.indySdk (some fbMain),
    production := [(some "startup::main", Ledger.injected fbMain),
      (some "L1", entryLedger Variant.basic (RootProfile.indySdk (some fbMain)) ⟨none⟩ entryL1)],
    nonProduction :=
      [(some "N1", entryLedger Variant.basic (RootProfile.indySdk (some fbMain)) ⟨none⟩ entryN1)],
    writeLedgerInfo := some (some "startup::main", Ledger.injected fbMain) }

/-- Manager built by the basic variant for `[entryW1]` with the genesis flag
set and fallback pool "main": the writer entry keeps the designation and the
fallback is appended. -/
def writerMgr : Manager :=
  { cls := basicManagerPath, profile := RootProfile.indySdk (some fbMain),
    production :=
      [(some "W1", entryLedger Variant.basic (RootProfile.indySdk (some fbMain)) ⟨none⟩ entryW1),
        (some "startup::main", Ledger.injected fbMain)],
    nonProduction := [],
    writeLedgerInfo :=
      some (some "W1", entryLedger Variant.basic (RootProfile.indySdk (some fbMain)) ⟨none⟩ entryW1) }

/-- Manager built by the basic variant for `[entryW1, entryW2]` without the
genesis flag: the second writer wins the designation. -/
def twoWritersMgr : Manager :=
  { cls := basicManagerPath, profile := RootProfile.indySdk none,
    production := [(some "W1", entryLedger Variant.basic (RootProfile.indySdk none) ⟨none⟩ entryW1)],
    nonProduction := [(some "W2", entryLedger Variant.basic (RootProfile.indySdk none) ⟨none⟩ entryW2)],
    writeLedgerInfo :=
      some (some "W2", entryLedger Variant.basic (RootProfile.indySdk none) ⟨none⟩ entryW2) }

/-- Manager built by the basic variant for the single all-fields-missing entry. -/
def emptyEntryMgr : Manager :=
  { cls := basicManagerPath, profile := RootProfile.indySdk none,
    production := [],
    nonProduction := [(none, entryLedger Variant.basic (RootProfile.indySdk none) ⟨none⟩ cEmpty)],
    writeLedgerInfo := none }

/-! ### Helper lemmas about the ordered-dict operations -/

theorem odInsert_of_not_mem {K V : Type} [DecidableEq K] (d : List (K × V)) (k : K) (v : V)
    (h : k ∉ d.map Prod.fst) : odInsert d k v = d ++ [(k, v)] := by
  induction d with
  | nil => rfl
  | cons p rest ih =>
    simp only [List.map_cons, List.mem_cons, not_or] at h
    simp only [odInsert]
    rw [if_neg (fun hpk => h.1 hpk.symm), ih h.2]
    rfl

theorem odLookup_odInsert_self {K V : Type} [DecidableEq K] (d : List (K × V)) (k : K) (v : V) :
    odLookup (odInsert d k v) k = some v := by
  induction d with
  | nil => simp [odInsert, odLookup]
  | cons p rest ih =>
    by_cases hp : p.1 = k
    · simp [odInsert, odLookup, hp]
    · simp [odInsert, odLookup, hp, ih]

theorem odMoveToFront_of_not_mem {K V : Type} [DecidableEq K] (d : List (K × V)) (k : K)
    (h : k ∉ d.map Prod.fst) : odMoveToFront d k = Except.error PyError.keyError := by
  have hfind : d.find? (fun p => decide (p.1 = k)) = none := by
    rw [List.find?_eq_none]
    intro p hp
    simp only [decide_eq_true_eq]
    intro hk
    exact h (List.mem_map.mpr ⟨p, hp, hk⟩)
  simp [odMoveToFront, hfind]

theorem find_append_fresh {K V : Type} [DecidableEq K] (d : List (K × V)) (k : K) (v : V)
    (hne : ∀ p ∈ d, ¬p.1 = k) :
    (d ++ [(k, v)]).find? (fun p => decide (p.1 = k)) = some (k, v) := by
  induction d with
  | nil => simp [List.find?]
  | cons p rest ih =>
    have hp : ¬p.1 = k := hne p (List.mem_cons_self p rest)
    simp only [List.cons_append, List.find?]
    rw [show decide (p.1 = k) = false by simpa using hp]
    exact ih (fun q hq => hne q (List.mem_cons_of_mem p hq))

theorem filter_ne_of_fresh {K V : Type} [DecidableEq K] (d : List (K × V)) (k : K)
    (hne : ∀ p ∈ d, ¬p.1 = k) :
    d.filter (fun q => decide (q.1 ≠ k)) = d := by
  induction d with
  | nil => rfl
  | cons p rest ih =>
    have hp : ¬p.1 = k := hne p (List.mem_cons_self p rest)
    rw [List.filter_cons_of_pos (by simpa using hp)]
    rw [ih (fun q hq => hne q (List.mem_cons_of_mem p hq))]

theorem odMoveToFront_append_fresh {K V : Type} [DecidableEq K] (d : List (K × V)) (k : K)
    (v : V) (h : k ∉ d.map Prod.fst) :
    odMoveToFront (d ++ [(k, v)]) k = Except.ok ((k, v) :: d) := by
  have hne : ∀ p ∈ d, ¬p.1 = k := by
    intro p hp hk
    exact h (List.mem_map.mpr ⟨p, hp, hk⟩)
  have hfind := find_append_fresh d k v hne
  have hfilter : (d ++ [(k, v)]).filter (fun q => decide (q.1 ≠ k)) = d := by
    rw [List.filter_append, filter_ne_of_fresh d k hne]
    have h2 : [(k, v)].filter (fun q : K × V => decide (q.1 ≠ k)) = [] := by simp
    rw [h2, List.append_nil]
  simp only [odMoveToFront, hfind, hfilter]

/-! ### Helper lemmas about the configuration loop -/

theorem processEntry_write (v : Variant) (profile : RootProfile) (inj : Injector)
    (st : LoopState) (c : ConfigEntry) :
    (processEntry v profile inj st c).writeLedgerInfo =
      (if truthy c.is_write then some (c.id, entryLedger v profile inj c)
       else st.writeLedgerInfo) := by
  simp only [processEntry]
  split <;> rfl

theorem foldl_write (v : Variant) (profile : RootProfile) (inj : Injector)
    (entries : List ConfigEntry) (st : LoopState) :
    (entries.foldl (processEntry v profile inj) st).writeLedgerInfo =
      (match lastWriter entries with
       | some c => some (c.id, entryLedger v profile inj c)
       | none => st.writeLedgerInfo) := by
  induction entries generalizing st with
  | nil => rfl
  | cons c rest ih =>
    rw [List.foldl_cons, ih]
    simp only [lastWriter]
    cases h : lastWriter rest with
    | some cr => simp
    | none =>
      rw [processEntry_write]
      cases hw : truthy c.is_write <;> simp [hw]

theorem foldl_parts (v : Variant) (profile : RootProfile) (inj : Injector)
    (entries : List ConfigEntry) (st : LoopState)
    (hnd : (entries.map (fun c => c.id)).Nodup)
    (hp : ∀ c ∈ entries, c.id ∉ st.production.map Prod.fst)
    (hn : ∀ c ∈ entries, c.id ∉ st.nonProduction.map Prod.fst) :
    (entries.foldl (processEntry v profile inj) st).production =
      st.production ++ prodPairs v profile inj entries ∧
    (entries.foldl (processEntry v profile inj) st).nonProduction =
      st.nonProduction ++ nonProdPairs v profile inj entries := by
  induction entries generalizing st with
  | nil => simp [prodPairs, nonProdPairs]
  | cons c rest ih =>
    simp only [List.map_cons, List.nodup_cons] at hnd
    obtain ⟨hcr, hndr⟩ := hnd
    have hpc : c.id ∉ st.production.map Prod.fst := hp c (List.mem_cons_self c rest)
    have hnc : c.id ∉ st.nonProduction.map Prod.fst := hn c (List.mem_cons_self c rest)
    have hne : ∀ c₂ ∈ rest, c₂.id ≠ c.id := by
      intro c₂ hc₂ hid
      exact hcr (hid ▸ List.mem_map.mpr ⟨c₂, hc₂, rfl⟩)
    cases hb : truthy c.is_production with
    | true =>
      have hst1 : processEntry v profile inj st c =
          { production := st.production ++ [(c.id, entryLedger v profile inj c)],
            nonProduction := st.nonProduction,
            writeLedgerInfo :=
              if truthy c.is_write then some (c.id, entryLedger v profile inj c)
              else st.writeLedgerInfo } := by
        simp only [processEntry, hb, if_true]
        rw [odInsert_of_not_mem st.production c.id _ hpc]
      rw [List.foldl_cons, hst1]
      have hrec := ih
        { production := st.production ++ [(c.id, entryLedger v profile inj c)],
          nonProduction := st.nonProduction,
          writeLedgerInfo :=
            if truthy c.is_write then some (c.id, entryLedger v profile inj c)
            else st.writeLedgerInfo }
        hndr
        (by
          intro c₂ hc₂
          simp only [List.map_append, List.map_cons, List.map_nil, List.mem_append,
            List.mem_singleton, not_or]
          exact ⟨hp c₂ (List.mem_cons_of_mem c hc₂), hne c₂ hc₂⟩)
        (fun c₂ hc₂ => hn c₂ (List.mem_cons_of_mem c hc₂))
      rw [hrec.1, hrec.2]
      constructor
      · rw [List.append_assoc]
        simp [prodPairs, List.filter_cons_of_pos, hb]
      · simp [nonProdPairs, List.filter_cons_of_neg, hb]
    | false =>
      have hst1 : processEntry v profile inj st c =
          { production := st.production,
            nonProduction := st.nonProduction ++ [(c.id, entryLedger v profile inj c)],
            writeLedgerInfo :=
              if truthy c.is_write then some (c.id, entryLedger v profile inj c)
              else st.writeLedgerInfo } := by
        simp only [processEntry, hb]
        rw [if_neg (by simp), odInsert_of_not_mem st.nonProduction c.id _ hnc]
      rw [List.foldl_cons, hst1]
      have hrec := ih
        { production := st.production,
          nonProduction := st.nonProduction ++ [(c.id, entryLedger v profile inj c)],
          writeLedgerInfo :=
            if truthy c.is_write then some (c.id, entryLedger v profile inj c)
            else st.writeLedgerInfo }
        hndr
        (fun c₂ hc₂ => hp c₂ (List.mem_cons_of_mem c hc₂))
        (by
          intro c₂ hc₂
          simp only [List.map_append, List.map_cons, List.map_nil, List.mem_append,
            List.mem_singleton, not_or]
          exact ⟨hn c₂ (List.mem_cons_of_mem c hc₂), hne c₂ hc₂⟩)
      rw [hrec.1, hrec.2]
      constructor
      · simp [prodPairs, List.filter_cons_of_neg, hb]
      · rw [List.append_assoc]
        simp [nonProdPairs, List.filter_cons_of_pos, hb]

/-! ### Key-set lemmas for the partitions -/

theorem prodPairs_keys (v : Variant) (profile : RootProfile) (inj : Injector)
    (entries : List ConfigEntry) :
    (prodPairs v profile inj entries).map Prod.fst =
      (entries.filter (fun c => truthy c.is_production)).map (fun c => c.id) := by
  unfold prodPairs
  rw [List.map_map]
  rfl

theorem nonProdPairs_keys (v : Variant) (profile : RootProfile) (inj : Injector)
    (entries : List ConfigEntry) :
    (nonProdPairs v profile inj entries).map Prod.fst =
      (entries.filter (fun c => !(truthy c.is_production))).map (fun c => c.id) := by
  unfold nonProdPairs
  rw [List.map_map]
  rfl

theorem filter_ids_subset (p : ConfigEntry → Bool) (entries : List ConfigEntry)
    (k : Option String) (h : k ∈ (entries.filter p).map (fun c => c.id)) :
    k ∈ idsOf entries := by
  rcases List.mem_map.mp h with ⟨c, hc, hk⟩
  exact List.mem_map.mpr ⟨c, (List.mem_filter.mp hc).1, hk⟩

theorem filter_ids_union (p : ConfigEntry → Bool) (entries : List ConfigEntry)
    (k : Option String) :
    (k ∈ (entries.filter p).map (fun c => c.id) ∨
      k ∈ (entries.filter (fun c => !p c)).map (fun c => c.id)) ↔ k ∈ idsOf entries := by
  constructor
  · rintro (h | h)
    · exact filter_ids_subset p entries k h
    · exact filter_ids_subset (fun c => !p c) entries k h
  · intro h
    rcases List.mem_map.mp h with ⟨c, hc, hk⟩
    cases hb : p c with
    | true => exact Or.inl (List.mem_map.mpr ⟨c, List.mem_filter.mpr ⟨hc, hb⟩, hk⟩)
    | false =>
      exact Or.inr (List.mem_map.mpr ⟨c, List.mem_filter.mpr ⟨hc, by simp [hb]⟩, hk⟩)

theorem filter_ids_disjoint (p : ConfigEntry → Bool) (entries : List ConfigEntry)
    (hnd : (entries.map (fun c => c.id)).Nodup) (k : Option String) :
    ¬(k ∈ (entries.filter p).map (fun c => c.id) ∧
      k ∈ (entries.filter (fun c => !p c)).map (fun c => c.id)) := by
  rintro ⟨h1, h2⟩
  rcases List.mem_map.mp h1 with ⟨c1, hc1, hk1⟩
  rcases List.mem_map.mp h2 with ⟨c2, hc2, hk2⟩
  rcases List.mem_filter.mp hc1 with ⟨hm1, hp1⟩
  rcases List.mem_filter.mp hc2 with ⟨hm2, hp2⟩
  have hid : c1.id = c2.id := by rw [hk1, hk2]
  have hcc : c1 = c2 := List.inj_on_of_nodup_map hnd hm1 hm2 hid
  rw [hcc] at hp1
  rw [hp1] at hp2
  simp at hp2

/-! ### Behaviour of the fallback block -/

theorem fallbackStep_write_some (v : Variant) (st : LoopState) (fb : FallbackLedger)
    (w : Option String × Ledger) (hw : st.writeLedgerInfo = some w) :
    fallbackStep v st fb =
      Except.ok
        { production := odInsert st.production (some (startupId fb)) (Ledger.injected fb),
          nonProduction := st.nonProduction, writeLedgerInfo := some w } := by
  simp [fallbackStep, hw]

theorem fallbackStep_none_basic_eq (st : LoopState) (fb : FallbackLedger)
    (hw : st.writeLedgerInfo = none) :
    fallbackStep Variant.basic st fb =
      (match odMoveToFront (odInsert st.production (some (startupId fb)) (Ledger.injected fb))
          (some (startupId fb)) with
       | Except.error e => Except.error e
       | Except.ok pr =>
         Except.ok
           { production := pr, nonProduction := st.nonProduction,
             writeLedgerInfo :=
               some (some (startupId fb), Ledger.injected fb) }) := by
  simp [fallbackStep, hw]

theorem fallbackStep_none_askar_eq (st : LoopState) (fb : FallbackLedger)
    (hw : st.writeLedgerInfo = none) :
    fallbackStep Variant.askarProfile st fb =
      (match odMoveToFront st.nonProduction (some (startupId fb)) with
       | Except.error e => Except.error e
       | Except.ok np =>
         Except.ok
           { production := odInsert st.production (some (startupId fb)) (Ledger.injected fb),
             nonProduction := np,
             writeLedgerInfo :=
               some (some (startupId fb), Ledger.injected fb) }) := by
  simp [fallbackStep, hw]

theorem fallbackStep_none_basic (st : LoopState) (fb : FallbackLedger)
    (hw : st.writeLedgerInfo = none)
    (hfresh : some (startupId fb) ∉ st.production.map Prod.fst) :
    fallbackStep Variant.basic st fb =
      Except.ok
        { production := (some (startupId fb), Ledger.injected fb) :: st.production,
          nonProduction := st.nonProduction,
          writeLedgerInfo := some (some (startupId fb), Ledger.injected fb) } := by
  rw [fallbackStep_none_basic_eq st fb hw]
  rw [odInsert_of_not_mem st.production _ _ hfresh]
  rw [odMoveToFront_append_fresh st.production _ _ hfresh]

theorem fallbackStep_none_askar (st : LoopState) (fb : FallbackLedger)
    (hw : st.writeLedgerInfo = none)
    (hfresh : some (startupId fb) ∉ st.nonProduction.map Prod.fst) :
    fallbackStep Variant.askarProfile st fb = Except.error PyError.keyError := by
  rw [fallbackStep_none_askar_eq st fb hw]
  rw [odMoveToFront_of_not_mem st.nonProduction _ hfresh]

/-! ### Characterization of a successful construction -/

theorem loader_tail_ok (loader : String → Bool) (v : Variant) (profile : RootProfile)
    (R : LoopState) (m : Manager)
    (h : (if loader (managerClassPath v) then
            Except.ok
              { cls := managerClassPath v, profile := profile,
                production := R.production, nonProduction := R.nonProduction,
                writeLedgerInfo := R.writeLedgerInfo }
          else
            Except.error (PyError.injectionError (unknownManagerMsg v))) =
        Except.ok m) :
    m = { cls := managerClassPath v, profile := profile, production := R.production,
          nonProduction := R.nonProduction, writeLedgerInfo := R.writeLedgerInfo } := by
  cases hl : loader (managerClassPath v) with
  | false =>
    rw [hl] at h
    simp at h
  | true =>
    rw [hl] at h
    simp at h
    exact h.symm

theorem buildManager_some (loader : String → Bool) (v : Variant) (profile : RootProfile)
    (s : Settings) (inj : Injector) (entries : List ConfigEntry)
    (h1 : s.ledger_config_list = some entries) :
    buildManager loader v profile s inj =
      (match (if s.genesis_transactions then
                match injectBaseLedger profile with
                | none => Except.error PyError.attributeError
                | some fb =>
                  fallbackStep v (entries.foldl (processEntry v profile inj) initState) fb
              else
                Except.ok (entries.foldl (processEntry v profile inj) initState)) with
       | Except.error e => Except.error e
       | Except.ok st1 =>
         if loader (managerClassPath v) then
           Except.ok
             { cls := managerClassPath v, profile := profile,
               production := st1.production, nonProduction := st1.nonProduction,
               writeLedgerInfo := st1.writeLedgerInfo }
         else
           Except.error (PyError.injectionError (unknownManagerMsg v))) := by
  unfold buildManager
  rw [h1]

theorem buildManager_ok_cases (loader : String → Bool) (v : Variant)
    (profile : RootProfile) (s : Settings) (inj : Injector)
    (entries : List ConfigEntry) (m : Manager)
    (h1 : s.ledger_config_list = some entries)
    (hnd : (entries.map (fun c => c.id)).Nodup)
    (hfr : ∀ fb, injectBaseLedger profile = some fb →
      some (startupId fb) ∉ entries.map (fun c => c.id))
    (h : buildManager loader v profile s inj = Except.ok m) :
    m.cls = managerClassPath v ∧ m.profile = profile ∧
      m.nonProduction = nonProdPairs v profile inj entries ∧
      ((s.genesis_transactions = false ∧
          m.production = prodPairs v profile inj entries ∧
          m.writeLedgerInfo =
            (match lastWriter entries with
             | some c => some (c.id, entryLedger v profile inj c)
             | none => none)) ∨
        (∃ fb, s.genesis_transactions = true ∧ injectBaseLedger profile = some fb ∧
          ((∃ c, lastWriter entries = some c ∧
              m.production = prodPairs v profile inj entries ++
                [(some (startupId fb), Ledger.injected fb)] ∧
              m.writeLedgerInfo = some (c.id, entryLedger v profile inj c)) ∨
            (lastWriter entries = none ∧ v = Variant.basic ∧
              m.production = (some (startupId fb), Ledger.injected fb) ::
                prodPairs v profile inj entries ∧
              m.writeLedgerInfo =
                some (some (startupId fb), Ledger.injected fb))))) := by
  rw [buildManager_some loader v profile s inj entries h1] at h
  generalize hst0 : entries.foldl (processEntry v profile inj) initState = st0 at h
  have hparts := foldl_parts v profile inj entries initState hnd
    (by intro c hc; simp [initState]) (by intro c hc; simp [initState])
  rw [hst0] at hparts
  have hprod : st0.production = prodPairs v profile inj entries := by
    simpa [initState] using hparts.1
  have hnonprod : st0.nonProduction = nonProdPairs v profile inj entries := by
    simpa [initState] using hparts.2
  have hwrite0 := foldl_write v profile inj entries initState
  rw [hst0] at hwrite0
  have hwrite : st0.writeLedgerInfo =
      (match lastWriter entries with
       | some c => some (c.id, entryLedger v profile inj c)
       | none => none) := by
    rw [hwrite0]
    cases hlw : lastWriter entries <;> simp [initState]
  cases hg : s.genesis_transactions with
  | false =>
    rw [hg] at h
    have hm := loader_tail_ok loader v profile st0 m h
    rw [hm]
    exact ⟨rfl, rfl, hnonprod, Or.inl ⟨rfl, hprod, hwrite⟩⟩
  | true =>
    rw [hg] at h
    cases hfb : injectBaseLedger profile with
    | none =>
      rw [hfb] at h
      have hbad : (Except.error PyError.attributeError : Except PyError Manager) =
          Except.ok m := h
      cases hbad
    | some fb =>
      rw [hfb] at h
      have h2 : (match fallbackStep v st0 fb with
                 | Except.error e => Except.error e
                 | Except.ok st1 =>
                   if loader (managerClassPath v) then
                     Except.ok
                       { cls := managerClassPath v, profile := profile,
                         production := st1.production,
                         nonProduction := st1.nonProduction,
                         writeLedgerInfo := st1.writeLedgerInfo }
                   else
                     Except.error (PyError.injectionError (unknownManagerMsg v))) =
          Except.ok m := h
      have hfresh := hfr fb hfb
      have hfreshp : some (startupId fb) ∉ st0.production.map Prod.fst := by
        intro hmem
        rw [hprod, prodPairs_keys] at hmem
        exact hfresh (filter_ids_subset _ entries _ hmem)
      have hfreshn : some (startupId fb) ∉ st0.nonProduction.map Prod.fst := by
        intro hmem
        rw [hnonprod, nonProdPairs_keys] at hmem
        exact hfresh (filter_ids_subset _ entries _ hmem)
      cases hlw : lastWriter entries with
      | some c =>
        have hw0 : st0.writeLedgerInfo = some (c.id, entryLedger v profile inj c) := by
          rw [hwrite, hlw]
        rw [fallbackStep_write_some v st0 fb _ hw0] at h2
        rw [odInsert_of_not_mem st0.production _ _ hfreshp] at h2
        have hm := loader_tail_ok loader v profile
          { production := st0.production ++ [(some (startupId fb), Ledger.injected fb)],
            nonProduction := st0.nonProduction,
            writeLedgerInfo := some (c.id, entryLedger v profile inj c) } m h2
        rw [hm]
        refine ⟨rfl, rfl, hnonprod, Or.inr ⟨fb, rfl, rfl, Or.inl ⟨c, rfl, ?_, rfl⟩⟩⟩
        simp [hprod]
      | none =>
        have hw0 : st0.writeLedgerInfo = none := by
          rw [hwrite, hlw]
        cases v with
        | basic =>
          rw [fallbackStep_none_basic st0 fb hw0 hfreshp] at h2
          have hm := loader_tail_ok loader Variant.basic profile
            { production := (some (startupId fb), Ledger.injected fb) :: st0.production,
              nonProduction := st0.nonProduction,
              writeLedgerInfo := some (some (startupId fb), Ledger.injected fb) } m h2
          rw [hm]
          refine ⟨rfl, rfl, hnonprod, Or.inr ⟨fb, rfl, rfl, Or.inr ⟨rfl, rfl, ?_, rfl⟩⟩⟩
          simp [hprod]
        | askarProfile =>
          rw [fallbackStep_none_askar st0 fb hw0 hfreshn] at h2
          have hbad : (Except.error PyError.keyError : Except PyError Manager) =
              Except.ok m := h2
          cases hbad

/-! ### Claim theorems -/

/-- C1: in the fallback step with no write designation yet, the two variants
apply the move-to-front to different partitions. The basic variant moves the
synthetic fallback id to the front of the production partition (leaving
non-production untouched), while the askar-profile variant applies the
move-to-front to the non-production partition (third conjunct gives the
general equation; since the fallback was just inserted into production, a
fresh id makes the step raise `KeyError`, second conjunct) — even though both
variants insert the fallback instance into the production partition. -/
theorem c1_fallback_partition_asymmetry (prod nonProd : List (Option String × Ledger))
    (fb : FallbackLedger)
    (h1 : some (startupId fb) ∉ prod.map Prod.fst)
    (h2 : some (startupId fb) ∉ nonProd.map Prod.fst) :
    fallbackStep Variant.basic ⟨prod, nonProd, none⟩ fb =
      Except.ok ⟨(some (startupId fb), Ledger.injected fb) :: prod, nonProd,
        some (some (startupId fb), Ledger.injected fb)⟩ ∧
    fallbackStep Variant.askarProfile ⟨prod, nonProd, none⟩ fb =
      Except.error PyError.keyError ∧
    (∀ np2 : List (Option String × Ledger),
      fallbackStep Variant.askarProfile ⟨prod, np2, none⟩ fb =
        (match odMoveToFront np2 (some (startupId fb)) with
         | Except.error e => Except.error e
         | Except.ok np =>
           Except.ok ⟨odInsert prod (some (startupId fb)) (Ledger.injected fb), np,
             some (some (startupId fb), Ledger.injected fb)⟩)) := by
  refine ⟨?_, ?_, ?_⟩
  · exact fallbackStep_none_basic ⟨prod, nonProd, none⟩ fb rfl h1
  · exact fallbackStep_none_askar ⟨prod, nonProd, none⟩ fb rfl h2
  · intro np2
    exact fallbackStep_none_askar_eq ⟨prod, np2, none⟩ fb rfl

/-- C1 witness: the asymmetry at empty partitions and fallback pool "main". -/
theorem c1_witness :
    fallbackStep Variant.basic ⟨[], [], none⟩ fbMain =
      Except.ok ⟨[(some "startup::main", Ledger.injected fbMain)], [],
        some (some "startup::main", Ledger.injected fbMain)⟩ ∧
    fallbackStep Variant.askarProfile ⟨[], [], none⟩ fbMain =
      Except.error PyError.keyError := by
  have h := c1_fallback_partition_asymmetry [] [] fbMain (by simp) (by simp)
  exact ⟨h.1, h.2.1⟩

/-- C10: when the genesis path runs while the write designation was already
set by a configuration entry, the fallback step of either variant only
appends the synthetic fallback id at the end of the production partition; the
non-production partition, the write designation, and the relative order of
previously inserted ids are unchanged, and no move-to-front is performed. -/
theorem c10_fallback_frame (v : Variant) (prod nonProd : List (Option String × Ledger))
    (w : Option String × Ledger) (fb : FallbackLedger)
    (h : some (startupId fb) ∉ prod.map Prod.fst) :
    fallbackStep v ⟨prod, nonProd, some w⟩ fb =
      Except.ok ⟨prod ++ [(some (startupId fb), Ledger.injected fb)], nonProd, some w⟩ := by
  have he := fallbackStep_write_some v ⟨prod, nonProd, some w⟩ fb w rfl
  rw [he, odInsert_of_not_mem prod _ _ h]

/-- C10 witness: the frame property at a concrete one-entry production
partition, in the askar variant. -/
theorem c10_witness :
    fallbackStep Variant.askarProfile
        ⟨[(some "L1", Ledger.injected fbMain)], [],
          some (some "L1", Ledger.injected fbMain)⟩ fbMain =
      Except.ok ⟨[(some "L1", Ledger.injected fbMain),
          (some "startup::main", Ledger.injected fbMain)], [],
        some (some "L1", Ledger.injected fbMain)⟩ :=
  c10_fallback_frame Variant.askarProfile [(some "L1", Ledger.injected fbMain)] []
    (some "L1", Ledger.injected fbMain) fbMain (by decide)

/-- C6: for a root context of an unrecognized kind, `provide` fails with the
`MultipleLedgerManagerError` (a configuration-error kind), the provider state
(including the memoization cache) is unchanged, and the outcome is identical
for arbitrary settings, injector and loader — so the failure happens before
any settings are read or any backend instance is constructed. -/
theorem c6_unrecognized_profile (insts : List (String × Manager))
    (loader loader2 : String → Bool) (s s2 : Settings) (i i2 : Injector) :
    (provide loader ⟨insts, RootProfile.other⟩ s i).1 =
      Except.error (PyError.multipleLedgerManagerError rootProfileErrMsg) ∧
    isConfigurationError (PyError.multipleLedgerManagerError rootProfileErrMsg) = true ∧
    (provide loader ⟨insts, RootProfile.other⟩ s i).2 = ⟨insts, RootProfile.other⟩ ∧
    provide loader ⟨insts, RootProfile.other⟩ s i =
      provide loader2 ⟨insts, RootProfile.other⟩ s2 i2 :=
  ⟨rfl, rfl, rfl, rfl⟩

/-- C7 counterexample: with an askar root profile, the genesis flag set and no
write entry, `provide` surfaces a `KeyError`, which is not of the
configuration-error kind — so not every failure of this core is surfaced as
the single typed configuration error. -/
theorem c7_counterexample :
    (provide loaderOk ⟨[], RootProfile.askar (some fbMain)⟩
        { ledger_config_list := some [], genesis_transactions := true } ⟨none⟩).1 =
      Except.error PyError.keyError ∧
    isConfigurationError PyError.keyError = false :=
  ⟨rfl, rfl⟩

/-- C7 amended: the two named failures are of the configuration-error kind —
the unrecognized-root-context error (`MultipleLedgerManagerError`) and the
wrapped dynamic-resolution failure (`InjectionError`) — and both paths of
`provide` raise them; but not every failure of the core is of that kind (see
the counterexample). -/
theorem c7_error_kinds :
    (∀ msg, isConfigurationError (PyError.multipleLedgerManagerError msg) = true) ∧
    (∀ msg, isConfigurationError (PyError.injectionError msg) = true) ∧
    (∀ (insts : List (String × Manager)) (loader : String → Bool) (s : Settings)
        (i : Injector),
      (provide loader ⟨insts, RootProfile.other⟩ s i).1 =
        Except.error (PyError.multipleLedgerManagerError rootProfileErrMsg)) ∧
    (provide loaderFail ⟨[], RootProfile.indySdk none⟩
        { ledger_config_list := some [], genesis_transactions := false } ⟨none⟩).1 =
      Except.error (PyError.injectionError (unknownManagerMsg Variant.basic)) :=
  ⟨fun _ => rfl, fun _ => rfl, fun _ _ _ _ => rfl, rfl⟩

/-- C8: construction is all-or-nothing with respect to the memoization cache:
every call to `provide` either returns a manager that the resulting provider
state holds in its cache under some class path, or returns an error and
leaves the provider state exactly as it was before the call. -/
theorem c8_all_or_nothing (loader : String → Bool) (p : Provider) (s : Settings)
    (i : Injector) :
    (∃ m mc, (provide loader p s i).1 = Except.ok m ∧
      odLookup (provide loader p s i).2.inst mc = some m) ∨
    (∃ e, (provide loader p s i).1 = Except.error e ∧ (provide loader p s i).2 = p) := by
  cases hv : variantOf p.root_profile with
  | error e =>
    right
    have heq : provide loader p s i = (Except.error e, p) := by
      simp only [provide, hv]
    exact ⟨e, by rw [heq], by rw [heq]⟩
  | ok v =>
    cases hl : odLookup p.inst (managerClassPath v) with
    | some m0 =>
      left
      have heq : provide loader p s i = (Except.ok m0, p) := by
        simp only [provide, hv, hl]
      exact ⟨m0, managerClassPath v, by rw [heq], by rw [heq]; exact hl⟩
    | none =>
      cases hb : buildManager loader v p.root_profile s i with
      | error e =>
        right
        have heq : provide loader p s i = (Except.error e, p) := by
          simp only [provide, hv, hl, hb]
        exact ⟨e, by rw [heq], by rw [heq]⟩
      | ok m0 =>
        left
        have heq : provide loader p s i =
            (Except.ok m0, { p with inst := odInsert p.inst (managerClassPath v) m0 }) := by
          simp only [provide, hv, hl, hb]
        refine ⟨m0, managerClassPath v, by rw [heq], ?_⟩
        rw [heq]
        exact odLookup_odInsert_self p.inst (managerClassPath v) m0

/-- C3: memoization — if a call to `provide` succeeds, any later call on the
resulting provider state (same root profile, hence same variant) returns the
identical manager and leaves the state unchanged, for arbitrary and possibly
different settings, injector and class loader: the cached instance is
returned without re-reading settings or reconstructing any backend. -/
theorem c3_memoization (loader loader2 : String → Bool) (p p2 : Provider)
    (s s2 : Settings) (i i2 : Injector) (m : Manager)
    (h : provide loader p s i = (Except.ok m, p2)) :
    provide loader2 p2 s2 i2 = (Except.ok m, p2) := by
  cases hv : variantOf p.root_profile with
  | error e =>
    have heq : provide loader p s i = (Except.error e, p) := by
      simp only [provide, hv]
    rw [heq] at h
    simp at h
  | ok v =>
    cases hl : odLookup p.inst (managerClassPath v) with
    | some m0 =>
      have heq : provide loader p s i = (Except.ok m0, p) := by
        simp only [provide, hv, hl]
      rw [heq] at h
      have hm : m0 = m := by
        have h1 := congrArg Prod.fst h
        simpa using h1
      have hp2 : p = p2 := by
        have h1 := congrArg Prod.snd h
        simpa using h1
      rw [← hp2, ← hm]
      simp only [provide, hv, hl]
    | none =>
      cases hb : buildManager loader v p.root_profile s i with
      | error e =>
        have heq : provide loader p s i = (Except.error e, p) := by
          simp only [provide, hv, hl, hb]
        rw [heq] at h
        simp at h
      | ok m0 =>
        have heq : provide loader p s i =
            (Except.ok m0, { p with inst := odInsert p.inst (managerClassPath v) m0 }) := by
          simp only [provide, hv, hl, hb]
        rw [heq] at h
        have hm : m0 = m := by
          have h1 := congrArg Prod.fst h
          simpa using h1
        have hp2 : ({ p with inst := odInsert p.inst (managerClassPath v) m0 } : Provider) = p2 := by
          have h1 := congrArg Prod.snd h
          simpa using h1
        have hroot : p2.root_profile = p.root_profile := by
          rw [← hp2]
        have hlook : odLookup p2.inst (managerClassPath v) = some m := by
          rw [← hp2, ← hm]
          exact odLookup_odInsert_self p.inst (managerClassPath v) m0
        simp only [provide, hroot, hv, hlook]

/-- C3 witness: a first successful call with an empty cache, then a second
call with different settings (even a missing config list) and a failing
loader still returns the identical cached manager and the same state. -/
theorem c3_witness :
    provide loaderFail
        ⟨[(basicManagerPath, emptyMgr)], RootProfile.indySdk none⟩
        { ledger_config_list := none, genesis_transactions := true } ⟨some ⟨0⟩⟩ =
      (Except.ok emptyMgr, ⟨[(basicManagerPath, emptyMgr)], RootProfile.indySdk none⟩) :=
  c3_memoization loaderOk loaderFail ⟨[], RootProfile.indySdk none⟩
    ⟨[(basicManagerPath, emptyMgr)], RootProfile.indySdk none⟩
    { ledger_config_list := some [], genesis_transactions := false }
    { ledger_config_list := none, genesis_transactions := true }
    ⟨none⟩ ⟨some ⟨0⟩⟩ emptyMgr rfl

/-- C5: the write designation is "last one wins" — whenever construction
succeeds and the list has writer entries, the designation names the last
entry in list order whose `is_write` is truthy, and a subsequent genesis-flag
fallback does not replace it (the hypothesis allows the genesis flag to be
set); the closed conjunct shows a two-writer list constructing successfully,
with no validation error, designating the second writer. -/
theorem c5_write_designation (loader : String → Bool) (v : Variant)
    (profile : RootProfile) (s : Settings) (inj : Injector)
    (entries : List ConfigEntry) (m : Manager) (c : ConfigEntry)
    (h1 : s.ledger_config_list = some entries)
    (h2 : lastWriter entries = some c)
    (h : buildManager loader v profile s inj = Except.ok m) :
    m.writeLedgerInfo = some (c.id, entryLedger v profile inj c) ∧
    (provide loaderOk ⟨[], RootProfile.indySdk none⟩
        { ledger_config_list := some [entryW1, entryW2], genesis_transactions := false }
        ⟨none⟩).1 =
      Except.ok twoWritersMgr := by
  refine ⟨?_, by rfl⟩
  rw [buildManager_some loader v profile s inj entries h1] at h
  generalize hst0 : entries.foldl (processEntry v profile inj) initState = st0 at h
  have hwrite0 := foldl_write v profile inj entries initState
  rw [hst0] at hwrite0
  have hw0 : st0.writeLedgerInfo = some (c.id, entryLedger v profile inj c) := by
    rw [hwrite0, h2]
  cases hg : s.genesis_transactions with
  | false =>
    rw [hg] at h
    have hm := loader_tail_ok loader v profile st0 m h
    rw [hm]
    exact hw0
  | true =>
    rw [hg] at h
    cases hfb : injectBaseLedger profile with
    | none =>
      rw [hfb] at h
      have hbad : (Except.error PyError.attributeError : Except PyError Manager) =
          Except.ok m := h
      cases hbad
    | some fb =>
      rw [hfb] at h
      have h3 : (match fallbackStep v st0 fb with
                 | Except.error e => Except.error e
                 | Except.ok st1 =>
                   if loader (managerClassPath v) then
                     Except.ok
                       { cls := managerClassPath v, profile := profile,
                         production := st1.production,
                         nonProduction := st1.nonProduction,
                         writeLedgerInfo := st1.writeLedgerInfo }
                   else
                     Except.error (PyError.injectionError (unknownManagerMsg v))) =
          Except.ok m := h
      rw [fallbackStep_write_some v st0 fb _ hw0] at h3
      have hm := loader_tail_ok loader v profile
        { production := odInsert st0.production (some (startupId fb)) (Ledger.injected fb),
          nonProduction := st0.nonProduction,
          writeLedgerInfo := some (c.id, entryLedger v profile inj c) } m h3
      rw [hm]

/-- C5 witness: one writer entry plus the genesis fallback — the writer keeps
the designation. -/
theorem c5_witness :
    writerMgr.writeLedgerInfo =
      some ((entryW1).id,
        entryLedger Variant.basic (RootProfile.indySdk (some fbMain)) ⟨none⟩ entryW1) ∧
    (provide loaderOk ⟨[], RootProfile.indySdk none⟩
        { ledger_config_list := some [entryW1, entryW2], genesis_transactions := false }
        ⟨none⟩).1 =
      Except.ok twoWritersMgr :=
  c5_write_designation loaderOk Variant.basic (RootProfile.indySdk (some fbMain))
    { ledger_config_list := some [entryW1], genesis_transactions := true } ⟨none⟩
    [entryW1] writerMgr entryW1 rfl rfl rfl

/-- C9 counterexample: a configuration entry with every field missing does
not make construction fail — each `config.get` silently yields `None`, the
entry is inserted under key `None` with an all-`None` pool, and `provide`
succeeds — so no configuration-read error is propagated for a missing
required field. -/
theorem c9_counterexample :
    (provide loaderOk ⟨[], RootProfile.indySdk none⟩
        { ledger_config_list := some [cEmpty], genesis_transactions := false } ⟨none⟩).1 =
      Except.ok emptyEntryMgr :=
  rfl

/-- C9 amended: reading a missing entry field never raises in this core —
`config.get` substitutes `None` — so with the basic variant, the genesis flag
false, the config list present and class resolution succeeding, construction
succeeds for every entry list regardless of which fields its entries are
missing. -/
theorem c9_missing_fields_no_error (entries : List ConfigEntry)
    (pfb : Option FallbackLedger) (inj : Injector) (loader : String → Bool)
    (hl : loader basicManagerPath = true) :
    isOkE (buildManager loader Variant.basic (RootProfile.indySdk pfb)
      { ledger_config_list := some entries, genesis_transactions := false } inj) = true := by
  have hred : buildManager loader Variant.basic (RootProfile.indySdk pfb)
      { ledger_config_list := some entries, genesis_transactions := false } inj =
      (if loader basicManagerPath then
        Except.ok
          { cls := managerClassPath Variant.basic, profile := RootProfile.indySdk pfb,
            production :=
              (entries.foldl
                (processEntry Variant.basic (RootProfile.indySdk pfb) inj) initState).production,
            nonProduction :=
              (entries.foldl
                (processEntry Variant.basic (RootProfile.indySdk pfb) inj) initState).nonProduction,
            writeLedgerInfo :=
              (entries.foldl
                (processEntry Variant.basic (RootProfile.indySdk pfb) inj)
                  initState).writeLedgerInfo }
      else
        Except.error (PyError.injectionError (unknownManagerMsg Variant.basic))) :=
    buildManager_some loader Variant.basic (RootProfile.indySdk pfb)
      { ledger_config_list := some entries, genesis_transactions := false } inj entries rfl
  rw [hred, hl]
  rfl

/-- C9 witness: two all-fields-missing entries still construct successfully. -/
theorem c9_witness :
    isOkE (buildManager loaderOk Variant.basic (RootProfile.indySdk none)
      { ledger_config_list := some [cEmpty, cEmpty], genesis_transactions := false }
      ⟨none⟩) = true :=
  c9_missing_fields_no_error [cEmpty, cEmpty] none ⟨none⟩ loaderOk rfl

/-- C2 counterexample: with the askar-profile variant, the spec scenario
(entries `[{id:"L1", is_production:true, is_write:false}]`, genesis flag true,
fallback pool name "main") does not yield any partitions — construction fails
with a `KeyError` from the wrongly-targeted move-to-front — so the claimed
order/scenario property does not hold for every configuration list across
both manager variants. -/
theorem c2_counterexample :
    (provide loaderOk ⟨[], RootProfile.askar (some fbMain)⟩
        { ledger_config_list := some [entryL1], genesis_transactions := true } ⟨none⟩).1 =
      Except.error PyError.keyError :=
  rfl

/-- C2 amended (restricted to the basic variant; the askar-profile variant
raises `KeyError` in the same situation, see the counterexample): insertion
order within each partition matches input list order — the non-production
partition is exactly the non-production entries in order; the production
partition is exactly the production entries in order, with the fallback
appended at the end when a write designation already exists and moved to the
front when the fallback becomes the write designation; in particular the spec
scenario yields production `[startup::main, L1]` in that order and write
designation `(startup::main, fallback-instance)`. -/
theorem c2_insertion_order_basic (profile : RootProfile) (s : Settings)
    (inj : Injector) (loader : String → Bool)
    (entries : List ConfigEntry) (m : Manager)
    (h1 : s.ledger_config_list = some entries)
    (h2 : (entries.map (fun c => c.id)).Nodup)
    (h3 : ∀ fb, injectBaseLedger profile = some fb →
      some (startupId fb) ∉ entries.map (fun c => c.id))
    (h : buildManager loader Variant.basic profile s inj = Except.ok m) :
    m.nonProduction = nonProdPairs Variant.basic profile inj entries ∧
    (s.genesis_transactions = false →
      m.production = prodPairs Variant.basic profile inj entries) ∧
    (∀ fb, s.genesis_transactions = true → injectBaseLedger profile = some fb →
      (lastWriter entries = none →
        m.production = (some (startupId fb), Ledger.injected fb) ::
          prodPairs Variant.basic profile inj entries ∧
        m.writeLedgerInfo = some (some (startupId fb), Ledger.injected fb)) ∧
      (lastWriter entries ≠ none →
        m.production = prodPairs Variant.basic profile inj entries ++
          [(some (startupId fb), Ledger.injected fb)])) ∧
    (provide loaderOk ⟨[], RootProfile.indySdk (some fbMain)⟩
        { ledger_config_list := some [entryL1], genesis_transactions := true } ⟨none⟩).1 =
      Except.ok scenarioMgr := by
  obtain ⟨hcls, hpro, hnp, hcases⟩ :=
    buildManager_ok_cases loader Variant.basic profile s inj entries m h1 h2 h3 h
  refine ⟨hnp, ?_, ?_, by rfl⟩
  · intro hg
    rcases hcases with ⟨hg2, hp, hw⟩ | ⟨fb, hg2, hfb2, hin⟩
    · exact hp
    · rw [hg] at hg2
      simp at hg2
  · intro fb hg hfb
    rcases hcases with ⟨hg2, hp, hw⟩ | ⟨fb2, hg2, hfb2, hin⟩
    · rw [hg] at hg2
      simp at hg2
    · rw [hfb] at hfb2
      injection hfb2 with hfbeq
      subst hfbeq
      constructor
      · intro hlw
        rcases hin with ⟨c, hc2, hp, hw⟩ | ⟨hlw2, hveq, hp, hw⟩
        · rw [hlw] at hc2
          simp at hc2
        · exact ⟨hp, hw⟩
      · intro hlw
        rcases hin with ⟨c, hc2, hp, hw⟩ | ⟨hlw2, hveq, hp, hw⟩
        · exact hp
        · exact absurd hlw2 hlw

/-- C2 witness: the amended theorem instantiated at the spec scenario. -/
theorem c2_witness :
    (provide loaderOk ⟨[], RootProfile.indySdk (some fbMain)⟩
        { ledger_config_list := some [entryL1], genesis_transactions := true } ⟨none⟩).1 =
      Except.ok scenarioMgr :=
  (c2_insertion_order_basic (RootProfile.indySdk (some fbMain))
    { ledger_config_list := some [entryL1], genesis_transactions := true } ⟨none⟩ loaderOk
    [entryL1] scenarioMgr rfl (by decide)
    (by
      intro fb hfb
      simp only [injectBaseLedger, Option.some.injEq] at hfb
      subst hfb
      decide)
    rfl).2.2.2

/-- C4: after a successful construction from a list with unique entry ids
that avoid the synthetic fallback id (in either variant), the union of keys
across the production and non-production partitions equals the set of entry
ids, plus the synthetic "startup::" id exactly when the genesis flag injects
the fallback, and no key appears in both partitions. -/
theorem c4_partition_keys (loader : String → Bool) (v : Variant)
    (profile : RootProfile) (s : Settings) (inj : Injector)
    (entries : List ConfigEntry) (m : Manager)
    (h1 : s.ledger_config_list = some entries)
    (h2 : (entries.map (fun c => c.id)).Nodup)
    (h3 : ∀ fb, injectBaseLedger profile = some fb →
      some (startupId fb) ∉ entries.map (fun c => c.id))
    (h : buildManager loader v profile s inj = Except.ok m) :
    (∀ k, (k ∈ m.production.map Prod.fst ∨ k ∈ m.nonProduction.map Prod.fst) ↔
      k ∈ expectedKeys profile s entries) ∧
    (∀ k, ¬(k ∈ m.production.map Prod.fst ∧ k ∈ m.nonProduction.map Prod.fst)) := by
  obtain ⟨hcls, hpro, hnp, hcases⟩ :=
    buildManager_ok_cases loader v profile s inj entries m h1 h2 h3 h
  rcases hcases with ⟨hg, hp, hw⟩ | ⟨fb, hg, hfb, hin⟩
  · have hek : expectedKeys profile s entries = idsOf entries := by
      unfold expectedKeys
      rw [hg]
      simp
    constructor
    · intro k
      rw [hek, hp, hnp, prodPairs_keys, nonProdPairs_keys]
      exact filter_ids_union (fun c => truthy c.is_production) entries k
    · intro k
      rw [hp, hnp, prodPairs_keys, nonProdPairs_keys]
      exact filter_ids_disjoint (fun c => truthy c.is_production) entries h2 k
  · have hek : expectedKeys profile s entries =
        idsOf entries ++ [some (startupId fb)] := by
      unfold expectedKeys
      rw [hg, hfb]
      simp
    have hfresh := h3 fb hfb
    have hpk : m.production.map Prod.fst =
        (entries.filter (fun c => truthy c.is_production)).map (fun c => c.id) ++
          [some (startupId fb)] ∨
        m.production.map Prod.fst =
        some (startupId fb) ::
          (entries.filter (fun c => truthy c.is_production)).map (fun c => c.id) := by
      rcases hin with ⟨c, hc, hp, hw⟩ | ⟨hlw, hveq, hp, hw⟩
      · left
        rw [hp, List.map_append, prodPairs_keys]
        rfl
      · right
        rw [hp, List.map_cons, prodPairs_keys]
    constructor
    · intro k
      have hun := filter_ids_union (fun c => truthy c.is_production) entries k
      rw [hek, hnp, nonProdPairs_keys]
      rcases hpk with hpk | hpk
      · rw [hpk]
        simp only [List.mem_append, List.mem_cons, List.not_mem_nil, or_false] at hun ⊢
        tauto
      · rw [hpk]
        simp only [List.mem_append, List.mem_cons, List.not_mem_nil, or_false] at hun ⊢
        tauto
    · intro k
      rintro ⟨hk1, hk2⟩
      have hdis := filter_ids_disjoint (fun c => truthy c.is_production) entries h2 k
      have hsubB : ∀ k2, k2 ∈ (entries.filter (fun c => !(truthy c.is_production))).map
          (fun c => c.id) → k2 ∈ idsOf entries :=
        fun k2 => filter_ids_subset (fun c => !(truthy c.is_production)) entries k2
      rw [hnp, nonProdPairs_keys] at hk2
      rcases hpk with hpk | hpk
      · rw [hpk] at hk1
        rcases List.mem_append.mp hk1 with hk1 | hk1
        · exact hdis ⟨hk1, hk2⟩
        · have hkl : k = some (startupId fb) := by simpa using hk1
          rw [hkl] at hk2
          exact hfresh (hsubB _ hk2)
      · rw [hpk] at hk1
        rcases List.mem_cons.mp hk1 with hk1 | hk1
        · rw [hk1] at hk2
          exact hfresh (hsubB _ hk2)
        · exact hdis ⟨hk1, hk2⟩

/-- C4 witness: the key-set property instantiated at a two-entry list with a
genesis fallback, checked at the keys "L1" and "N1". -/
theorem c4_witness :
    ((some "L1" ∈ twoPartMgr.production.map Prod.fst ∨
        some "L1" ∈ twoPartMgr.nonProduction.map Prod.fst) ↔
      some "L1" ∈ expectedKeys (RootProfile.indySdk (some fbMain))
        { ledger_config_list := some [entryL1, entryN1], genesis_transactions := true }
        [entryL1, entryN1]) ∧
    ¬(some "N1" ∈ twoPartMgr.production.map Prod.fst ∧
      some "N1" ∈ twoPartMgr.nonProduction.map Prod.fst) := by
  have hc := c4_partition_keys loaderOk Variant.basic (RootProfile.indySdk (some fbMain))
    { ledger_config_list := some [entryL1, entryN1], genesis_transactions := true } ⟨none⟩
    [entryL1, entryN1] twoPartMgr rfl (by decide)
    (by
      intro fb hfb
      simp only [injectBaseLedger, Option.some.injEq] at hfb
      subst hfb
      decide)
    rfl
  exact ⟨hc.1 (some "L1"), hc.2 (some "N1")⟩

end MultiLedger
